import Mathlib

/-!
Shallow embedding of the job-process orchestration core of this repository
(`aiida/work/job_processes.py`) and of `aiida/backends/utils.py`, with
theorems settling the specification claims about them.

Python strings are Lean `String`s, Python exceptions are values of `PyErr`,
mutation of the durable record (`JobCalculation` node) is explicit state
passing on `CalcNode`, and a fallible computation returns `Except`.
-/

namespace Aiida

/-! ## `aiida/backends/utils.py` -/

/-- The attribute separator constant `AIIDA_ATTRIBUTE_SEP = '.'`. -/
def AIIDA_ATTRIBUTE_SEP : String := "."

/-- A validation error as raised by `validate_attribute_key`, carrying the message. -/
structure ValidationError where
  msg : String
deriving DecidableEq, Repr

/-- A Python value passed as an attribute key: either a string or some non-string
object (only string-ness matters to `validate_attribute_key`). -/
inductive PyKeyVal
  | str (s : String)
  | nonString
deriving DecidableEq, Repr

/-- Embedding of `validate_attribute_key` (utils.py lines 23-40): returns `ok` for a
valid key and a `ValidationError` otherwise.  The Python membership test
`AIIDA_ATTRIBUTE_SEP in key` with the single-character separator `'.'` is the
character membership `'.' ∈ s.data`. -/
def validate_attribute_key : PyKeyVal → Except ValidationError Unit
  | .nonString => .error ⟨"The key must be a string."⟩
  | .str s =>
    if s = "" then
      .error ⟨"The key cannot be an empty string."⟩
    else if '.' ∈ s.data then
      .error ⟨"The separator symbol '.' cannot be present in the key of attributes, extras, etc."⟩
    else
      .ok ()

/-! ## `aiida/work/job_processes.py`: option schema of `JobProcess.build` -/

/-- The Python value kinds appearing in the `options` schema of
`JobProcess.build` (lines 227-241). `anyListTuple` is `voluptuous.Any(list, tuple)`
and `computer` is the `Computer` class. -/
inductive PyType
  | int
  | dict
  | unicode
  | basestring
  | bool
  | anyListTuple
  | computer
deriving DecidableEq, Repr

/-- Embedding of the `options` dict of `JobProcess.build.define`
(job_processes.py lines 227-241), in source order. -/
def JobProcess.options : List (String × PyType) :=
  [("max_wallclock_seconds", .int),
   ("resources", .dict),
   ("custom_scheduler_commands", .unicode),
   ("queue_name", .basestring),
   ("computer", .computer),
   ("withmpi", .bool),
   ("mpirun_extra_params", .anyListTuple),
   ("import_sys_environment", .bool),
   ("environment_variables", .dict),
   ("priority", .unicode),
   ("max_memory_kb", .int),
   ("prepend_text", .unicode),
   ("append_text", .unicode)]

/-- The value-kind vocabulary used by the specification for option entries. -/
inductive SpecKind
  | sInt
  | sMapping
  | sText
  | sBool
  | sList
  | sComputer
deriving DecidableEq, Repr

/-- The classification of a code-level Python kind into the spec's vocabulary:
`unicode` and `basestring` are both "text", `Any(list, tuple)` is what the spec
calls "list". -/
def specKindOf : PyType → SpecKind
  | .int => .sInt
  | .dict => .sMapping
  | .unicode => .sText
  | .basestring => .sText
  | .bool => .sBool
  | .anyListTuple => .sList
  | .computer => .sComputer

/-- The option bundle exactly as the specification claims it: twelve keys, with
the stated kinds, and no other key.  This definition follows the spec's words,
to be compared against `JobProcess.options` from the source. -/
def specClaimedOptions : List (String × SpecKind) :=
  [("max_wallclock_seconds", .sInt),
   ("resources", .sMapping),
   ("custom_scheduler_commands", .sText),
   ("queue_name", .sText),
   ("withmpi", .sBool),
   ("mpirun_extra_params", .sList),
   ("import_sys_environment", .sBool),
   ("environment_variables", .sMapping),
   ("priority", .sText),
   ("max_memory_kb", .sInt),
   ("prepend_text", .sText),
   ("append_text", .sText)]

/-- The amended option bundle: the twelve claimed keys plus `computer`
(a `Computer` instance), in the source's order, each with its stated kind. -/
def specAmendedOptions : List (String × SpecKind) :=
  [("max_wallclock_seconds", .sInt),
   ("resources", .sMapping),
   ("custom_scheduler_commands", .sText),
   ("queue_name", .sText),
   ("computer", .sComputer),
   ("withmpi", .sBool),
   ("mpirun_extra_params", .sList),
   ("import_sys_environment", .sBool),
   ("environment_variables", .sMapping),
   ("priority", .sText),
   ("max_memory_kb", .sInt),
   ("prepend_text", .sText),
   ("append_text", .sText)]

/-! ## `aiida/work/job_processes.py`: the waiting-state sub-protocol -/

/-- The waiting command string constants (job_processes.py lines 33-35). -/
def SUBMIT_COMMAND : String := "submit"

/-- Command string for polling scheduler updates. -/
def UPDATE_SCHEDULER_COMMAND : String := "update_scheduler"

/-- Command string for retrieving the finished calculation. -/
def RETRIEVE_COMMAND : String := "retrieve"

/-- A Python exception value, as relevant to this code: `RuntimeError` (raised on
an unknown waiting command), `NotImplementedError` (from `get_detailed_jobinfo`),
`ModificationNotAllowed` (from `_set_state`), or any other exception tagged by a
number. -/
inductive PyErr
  | runtimeError
  | notImplementedError
  | modificationNotAllowed
  | exc (n : Nat)
deriving DecidableEq, Repr

/-- A Python value yielded by a task future: `None`, a bool (the `job_done` flag of
`UpdateSchedulerState`), or a retrieved temporary folder handle. -/
inductive Val
  | none
  | bool (b : Bool)
  | folder (id : Nat)
deriving DecidableEq, Repr

/-- Python truthiness of a `Val`, as used by `if job_done:`. -/
def pyTruthy : Val → Bool
  | .none => false
  | .bool b => b
  | .folder _ => true

/-- The resolution of a yielded task future, as observed by the coroutine that
awaits it: a result, a raised exception, or a raised `plumpy.CancelledError`. -/
inductive TaskOutcome
  | ok (v : Val)
  | exn (e : PyErr)
  | cancelledError
deriving DecidableEq, Repr

/-- An exceptional exit of the `try` body of `Waiting.action_command`: either a
`plumpy.CancelledError` or any other `BaseException`. -/
inductive BodyErr
  | cancelled
  | base (e : PyErr)
deriving DecidableEq, Repr

/-- The continuation passed to `transition_to(RUNNING, ...)`; the only one used
by `Waiting` is `self.process.retrieved`. -/
inductive Continuation
  | processRetrieved
deriving DecidableEq, Repr

/-- A state-machine transition requested by the waiting state: to WAITING with a
message and a command payload, to RUNNING with a continuation and its argument,
to FAILED with the causing exception, or to CANCELLED. -/
inductive Transition
  | toWaiting (msg : String) (data : String)
  | toRunning (cont : Continuation) (arg : Val)
  | toFailed (e : PyErr)
  | toCancelled
deriving DecidableEq, Repr

/-- Embedding of `Waiting.scheduler_update` (lines 180-185): transition to
WAITING with the update-scheduler command. -/
def Waiting.scheduler_update : Transition :=
  .toWaiting "Waiting for scheduler update" UPDATE_SCHEDULER_COMMAND

/-- Embedding of `Waiting.retrieve` (lines 187-192): transition to WAITING with
the retrieve command. -/
def Waiting.retrieve : Transition :=
  .toWaiting "Waiting to retrieve" RETRIEVE_COMMAND

/-- Embedding of `Waiting.retrieved` (lines 194-198): transition to RUNNING,
resuming with `self.process.retrieved` applied to the retrieved folder. -/
def Waiting.retrieved (retrieved_temporary_folder : Val) : Transition :=
  .toRunning .processRetrieved retrieved_temporary_folder

/-- The `try` body of `Waiting.action_command` (lines 143-167): dispatch on
`self.data`, create the matching task, await its outcome, and on success request
the next transition; an unknown command raises `RuntimeError`.  A raised
exception of the awaited task is an exceptional exit of the body. -/
def Waiting.action_command_body (data : String) (outcome : TaskOutcome) :
    Except BodyErr Transition :=
  if data = SUBMIT_COMMAND then
    match outcome with
    | .ok _ => .ok Waiting.scheduler_update
    | .exn e => .error (.base e)
    | .cancelledError => .error .cancelled
  else if data = UPDATE_SCHEDULER_COMMAND then
    match outcome with
    | .ok job_done =>
      if pyTruthy job_done then .ok Waiting.retrieve else .ok Waiting.scheduler_update
    | .exn e => .error (.base e)
    | .cancelledError => .error .cancelled
  else if data = RETRIEVE_COMMAND then
    match outcome with
    | .ok retrieved_temporary_folder => .ok (Waiting.retrieved retrieved_temporary_folder)
    | .exn e => .error (.base e)
    | .cancelledError => .error .cancelled
  else
    .error (.base .runtimeError)

/-- The kinds of transport tasks the waiting state creates. -/
inductive TaskKind
  | submitJob
  | updateSchedulerState
  | retrieveJob
deriving DecidableEq, Repr

/-- The mutable fields of a `Waiting` state instance: the command payload
`self.data`, the currently running task `self._task`, and the pending cancelling
future `self._cancelling_future` (modelled as `some r` when the future exists,
where `r` is its result slot). -/
structure WaitingState where
  data : String
  task : Option TaskKind
  cancelling_future : Option (Option Bool)
deriving DecidableEq, Repr

/-- The observable outcome of one run of `Waiting.action_command`: the requested
state-machine transition, the waiting state afterwards (the `finally` clause
clears `self._task`), and the result value set on the cancelling future during
the run, if any. -/
structure ActionResult where
  transition : Transition
  st : WaitingState
  futureSetResult : Option Bool
deriving DecidableEq, Repr

/-- Embedding of `Waiting.action_command` (lines 138-178): run the body; on a
`CancelledError` transition to CANCELLED and resolve a pending cancelling future
with `True` (clearing the field); on any other exception transition to FAILED
with that exception; always clear `self._task` in `finally`. -/
def Waiting.action_command (st : WaitingState) (outcome : TaskOutcome) : ActionResult :=
  match Waiting.action_command_body st.data outcome with
  | .ok t =>
    { transition := t, st := { st with task := none }, futureSetResult := none }
  | .error .cancelled =>
    match st.cancelling_future with
    | some _ =>
      { transition := .toCancelled,
        st := { st with task := none, cancelling_future := none },
        futureSetResult := some true }
    | none =>
      { transition := .toCancelled, st := { st with task := none }, futureSetResult := none }
  | .error (.base e) =>
    { transition := .toFailed e, st := { st with task := none }, futureSetResult := none }

/-- The value returned by `Waiting.cancel`: either a (pending, unresolved)
cancelling future, or deferral to the superclass `cancel` (immediate
cancellation, no task in flight). -/
inductive CancelReturn
  | pendingFuture
  | superCancel
deriving DecidableEq, Repr

/-- Embedding of `Waiting.cancel` (lines 200-209): return an existing cancelling
future if there is one; otherwise, if a task is in flight, create a cancelling
future, cancel the task and return the future; otherwise defer to the
superclass. -/
def Waiting.cancel (st : WaitingState) : CancelReturn × WaitingState :=
  match st.cancelling_future with
  | some _ => (.pendingFuture, st)
  | none =>
    match st.task with
    | some _ => (.pendingFuture, { st with cancelling_future := some none })
    | none => (.superCancel, st)

/-- A callback scheduled on the process's event loop via `call_soon`. -/
inductive Scheduled
  | actionCommand
deriving DecidableEq, Repr

/-- The serialized snapshot of a waiting state as far as `load_instance_state`
reads it: the message and the command payload. -/
structure SavedWaiting where
  msg : String
  data : String
deriving DecidableEq, Repr

/-- Embedding of `Waiting.__init__` followed by `Waiting.enter` (lines 118-125):
a fresh waiting state has no task and no cancelling future, and entering
schedules `action_command`. -/
def Waiting.enter (st : WaitingState) : WaitingState × List Scheduled :=
  (st, [.actionCommand])

/-- Embedding of `Waiting.load_instance_state` (lines 127-131): restore the
payload from the snapshot, set `self._task = None` and
`self._cancelling_future = None`, and schedule `action_command` again. -/
def Waiting.load_instance_state (saved : SavedWaiting) : WaitingState × List Scheduled :=
  ({ data := saved.data, task := none, cancelling_future := none }, [.actionCommand])

/-- Embedding of `JobProcess.run` (lines 341-350): put the calculation in the
TOSUBMIT state and return `plumpy.Wait(msg='Waiting to submit',
data=SUBMIT_COMMAND)`, modelled as the requested transition to WAITING. -/
def JobProcess.run : Transition :=
  .toWaiting "Waiting to submit" SUBMIT_COMMAND

/-- How a driven waiting-phase run ends: still waiting on an unresolved task,
resumed RUNNING through a continuation, FAILED with an exception, or CANCELLED. -/
inductive RunEnd
  | stillWaiting
  | resumedRunning (cont : Continuation) (arg : Val)
  | failed (e : PyErr)
  | cancelled
deriving DecidableEq, Repr

/-- Drive the waiting state machine from command `data`, feeding each successive
`action_command` invocation the next task outcome from `outs`.  Returns the list
of commands executed, in order, and how the run ended. -/
def runWaiting (data : String) : List TaskOutcome → List String × RunEnd
  | [] => ([], .stillWaiting)
  | o :: rest =>
    match Waiting.action_command_body data o with
    | .ok (.toWaiting _ next) =>
      let r := runWaiting next rest
      (data :: r.1, r.2)
    | .ok (.toRunning c v) => ([data], .resumedRunning c v)
    | .ok (.toFailed e) => ([data], .failed e)
    | .ok .toCancelled => ([data], .cancelled)
    | .error (.base e) => ([data], .failed e)
    | .error .cancelled => ([data], .cancelled)

/-! ## `aiida/work/job_processes.py`: the transport tasks and result parsing -/

/-- Scheduler job states from `aiida.scheduler.datastructures.job_states`. -/
inductive JobState
  | created
  | queued
  | queuedHeld
  | running
  | suspended
  | done
  | undetermined
deriving DecidableEq, Repr

/-- Calculation states from `aiida.common.datastructures.calc_states` (the ones
this file uses). -/
inductive CalcState
  | new
  | tosubmit
  | submitting
  | withscheduler
  | computed
  | retrieving
  | parsing
  | parsingfailed
deriving DecidableEq, Repr

/-- A scheduler job-info entry, as far as this code reads it: its `job_state`. -/
structure JobInfo where
  job_state : JobState
deriving DecidableEq, Repr

/-- The durable `JobCalculation` record, restricted to the fields this code
mutates or reads: the scheduler state, the last stored job info, the calculation
state, and the stored detailed job info. -/
structure CalcNode where
  scheduler_state : Option JobState
  last_jobinfo : Option JobInfo
  state : CalcState
  detailed_info : Option String
deriving DecidableEq, Repr

/-- Embedding of `self._calc._set_scheduler_state(js)`. -/
def CalcNode.set_scheduler_state (calcNode : CalcNode) (js : JobState) : CalcNode :=
  { calcNode with scheduler_state := some js }

/-- Embedding of `self._calc._set_state(cs)` when the call succeeds. -/
def CalcNode.set_state (calcNode : CalcNode) (cs : CalcState) : CalcNode :=
  { calcNode with state := cs }

/-- Modelled from the spec: `aiida.daemon.execmanager.update_job_calc_from_job_info`
is not under src/; per the spec it "update[s] the durable record's job-state
snapshot", so it stores the polled job info on the record. -/
def update_job_calc_from_job_info (calcNode : CalcNode) (info : JobInfo) : CalcNode :=
  { calcNode with last_jobinfo := some info }

/-- Modelled from the spec: `execmanager.update_job_calc_from_detailed_job_info`
is not under src/; it stores the detailed post-mortem job info on the record. -/
def update_job_calc_from_detailed_job_info (calcNode : CalcNode) (s : String) : CalcNode :=
  { calcNode with detailed_info := some s }

/-- The placeholder message substituted when the scheduler does not implement
`get_detailed_jobinfo` (job_processes.py lines 95-99). -/
def detailedInfoPlaceholder : String :=
  "AiiDA MESSAGE: This scheduler does not implement the routine get_detailed_jobinfo to retrieve the information on a job after it has finished."

/-- Embedding of `UpdateSchedulerState.execute` (lines 65-104).  `found` is the
entry for this calculation's job id in the `getJobs` listing (`None` when
absent); `detailed` is the behaviour of `scheduler.get_detailed_jobinfo`.
Returns the record as mutated up to the point of return or raise, paired with
either the returned `job_done` flag or the escaping exception. -/
def UpdateSchedulerState.execute (calcNode : CalcNode) (found : Option JobInfo)
    (detailed : Except PyErr String) : CalcNode × Except PyErr Bool :=
  let step1 : CalcNode × Bool :=
    match found with
    | none => (calcNode.set_scheduler_state JobState.done, true)
    | some info =>
      let last_jobinfo := calcNode.last_jobinfo
      let calc1 :=
        match last_jobinfo with
        | some last =>
          if info.job_state ≠ last.job_state then update_job_calc_from_job_info calcNode info
          else calcNode
        | none => calcNode
      (calc1, info.job_state = JobState.done)
  let calc1 := step1.1
  let job_done := step1.2
  if job_done then
    match detailed with
    | .ok s =>
      (((update_job_calc_from_detailed_job_info calc1 s).set_state .computed), .ok true)
    | .error .notImplementedError =>
      (((update_job_calc_from_detailed_job_info calc1 detailedInfoPlaceholder).set_state
          .computed), .ok true)
    | .error e => (calc1, .error e)
  else
    (calc1, .ok false)

/-- Embedding of `JobProcess.retrieved` (lines 352-372).  `parse` is the
behaviour of `execmanager.parse_results`; `set_state_err` is the exception
raised by `self.calc._set_state(calc_states.PARSINGFAILED)` if any; `outputs` is
`self.calc.get_outputs_dict()`.  Returns the record as mutated, paired with either
the linked outputs or the escaping exception. -/
def JobProcess.retrieved (calcNode : CalcNode) (parse : Except PyErr Unit)
    (set_state_err : Option PyErr) (outputs : List (String × Nat)) :
    CalcNode × Except PyErr (List (String × Nat)) :=
  match parse with
  | .ok _ => (calcNode, .ok outputs)
  | .error e =>
    match set_state_err with
    | none => (calcNode.set_state .parsingfailed, .error e)
    | some .modificationNotAllowed => (calcNode, .error e)
    | some e2 => (calcNode, .error e2)

/-- The resolution slots of a `plumpy.Future` underlying a `TransportTask`:
the result, the captured exception info, and the cancelled flag. -/
structure TaskFuture where
  result : Option Val
  exc : Option PyErr
  cancelledFlag : Bool
deriving DecidableEq, Repr

/-- Embedding of `TransportTask._execute` (lines 49-54), the callback invoked
when the transport queue grants a transport.  `run` is the behaviour of
`self.execute(transport)`.  Returns the future afterwards and whether
`execute` was invoked at all. -/
def TransportTask._execute (fut : TaskFuture) (run : Except PyErr Val) :
    TaskFuture × Bool :=
  if fut.cancelledFlag then
    (fut, false)
  else
    match run with
    | .ok v => ({ fut with result := some v }, true)
    | .error e => ({ fut with exc := some e }, true)

end Aiida

namespace Aiida

/-- C10: `validate_attribute_key` succeeds exactly on a non-empty string key that
does not contain the separator `'.'`; in every remaining case (non-string key,
empty string, string containing `'.'`) it returns a `ValidationError`. -/
theorem claim_C10_validate_attribute_key (k : PyKeyVal) :
    (validate_attribute_key k = .ok () ↔
      ∃ s, k = .str s ∧ s ≠ "" ∧ '.' ∉ s.data) ∧
    ((¬ ∃ s, k = .str s ∧ s ≠ "" ∧ '.' ∉ s.data) →
      ∃ e, validate_attribute_key k = .error e) := by
  cases k with
  | nonString =>
    refine ⟨by simp [validate_attribute_key], fun _ => ⟨_, rfl⟩⟩
  | str s =>
    by_cases he : s = ""
    · subst he
      refine ⟨by simp [validate_attribute_key], fun _ => ?_⟩
      exact ⟨⟨"The key cannot be an empty string."⟩, rfl⟩
    · by_cases hin : '.' ∈ s.data
      · refine ⟨by simp [validate_attribute_key, he, hin], fun _ => ?_⟩
        refine ⟨⟨"The separator symbol '.' cannot be present in the key of attributes, extras, etc."⟩, ?_⟩
        simp [validate_attribute_key, he, hin]
      · refine ⟨by simp [validate_attribute_key, he, hin], fun h => ?_⟩
        exact absurd ⟨s, rfl, he, hin⟩ h

/-- C10 witness: the dotted key "a.b" falls in an invalid case and the theorem
produces a concrete `ValidationError` for it. -/
theorem claim_C10_witness :
    ∃ e, validate_attribute_key (.str "a.b") = .error e :=
  (claim_C10_validate_attribute_key (.str "a.b")).2
    (fun ⟨_, hs, _, hn⟩ => by cases hs; exact hn (by decide))

/-- Helper: the body of `action_command` for the update-scheduler command and a
successful task outcome is definitionally an if on the job-done flag. -/
lemma body_update_ok (jd : Val) :
    Waiting.action_command_body UPDATE_SCHEDULER_COMMAND (.ok jd)
      = if pyTruthy jd then .ok Waiting.retrieve else .ok Waiting.scheduler_update := rfl

/-- Helper: a waiting-phase run from the retrieve command that resumes RUNNING
executed exactly the retrieve command, resuming with `process.retrieved`. -/
lemma runWaiting_retrieve_resumed (outs : List TaskOutcome) (c : Continuation) (v : Val)
    (h : (runWaiting RETRIEVE_COMMAND outs).2 = .resumedRunning c v) :
    (runWaiting RETRIEVE_COMMAND outs).1 = [RETRIEVE_COMMAND] ∧ c = .processRetrieved := by
  cases outs with
  | nil => simp [runWaiting] at h
  | cons o rest =>
    cases o with
    | ok v0 =>
      have hrw : runWaiting RETRIEVE_COMMAND (.ok v0 :: rest)
          = ([RETRIEVE_COMMAND], .resumedRunning .processRetrieved v0) := rfl
      rw [hrw] at h
      cases h
      exact ⟨congrArg Prod.fst hrw, rfl⟩
    | exn e =>
      have hrw : runWaiting RETRIEVE_COMMAND (.exn e :: rest)
          = ([RETRIEVE_COMMAND], .failed e) := rfl
      rw [hrw] at h
      cases h
    | cancelledError =>
      have hrw : runWaiting RETRIEVE_COMMAND (.cancelledError :: rest)
          = ([RETRIEVE_COMMAND], .cancelled) := rfl
      rw [hrw] at h
      cases h

/-- Helper: a waiting-phase run from the update-scheduler command that resumes
RUNNING executed one or more update-scheduler commands and then the retrieve
command, resuming with `process.retrieved`. -/
lemma runWaiting_update_resumed (outs : List TaskOutcome) (c : Continuation) (v : Val)
    (h : (runWaiting UPDATE_SCHEDULER_COMMAND outs).2 = .resumedRunning c v) :
    (∃ k, (runWaiting UPDATE_SCHEDULER_COMMAND outs).1
        = List.replicate (k + 1) UPDATE_SCHEDULER_COMMAND ++ [RETRIEVE_COMMAND]) ∧
    c = .processRetrieved := by
  induction outs with
  | nil => simp [runWaiting] at h
  | cons o rest ih =>
    cases o with
    | ok jd =>
      cases hb : pyTruthy jd with
      | true =>
        have hbody : Waiting.action_command_body UPDATE_SCHEDULER_COMMAND (.ok jd)
            = .ok Waiting.retrieve := by
          rw [body_update_ok, hb]
          rfl
        have hrw : runWaiting UPDATE_SCHEDULER_COMMAND (.ok jd :: rest)
            = (UPDATE_SCHEDULER_COMMAND :: (runWaiting RETRIEVE_COMMAND rest).1,
               (runWaiting RETRIEVE_COMMAND rest).2) := by
          simp [runWaiting, hbody, Waiting.retrieve]
        rw [hrw] at h
        obtain ⟨htr, hc⟩ := runWaiting_retrieve_resumed rest c v h
        refine ⟨⟨0, ?_⟩, hc⟩
        rw [hrw, htr]
        rfl
      | false =>
        have hbody : Waiting.action_command_body UPDATE_SCHEDULER_COMMAND (.ok jd)
            = .ok Waiting.scheduler_update := by
          rw [body_update_ok, hb]
          rfl
        have hrw : runWaiting UPDATE_SCHEDULER_COMMAND (.ok jd :: rest)
            = (UPDATE_SCHEDULER_COMMAND :: (runWaiting UPDATE_SCHEDULER_COMMAND rest).1,
               (runWaiting UPDATE_SCHEDULER_COMMAND rest).2) := by
          simp [runWaiting, hbody, Waiting.scheduler_update]
        rw [hrw] at h
        obtain ⟨⟨k, htr⟩, hc⟩ := ih h
        refine ⟨⟨k + 1, ?_⟩, hc⟩
        rw [hrw, htr]
        simp [List.replicate_succ]
    | exn e =>
      have hrw : runWaiting UPDATE_SCHEDULER_COMMAND (.exn e :: rest)
          = ([UPDATE_SCHEDULER_COMMAND], .failed e) := rfl
      rw [hrw] at h
      cases h
    | cancelledError =>
      have hrw : runWaiting UPDATE_SCHEDULER_COMMAND (.cancelledError :: rest)
          = ([UPDATE_SCHEDULER_COMMAND], .cancelled) := rfl
      rw [hrw] at h
      cases h

/-- C1: a waiting phase started from the command of `JobProcess.run` that ends by
resuming RUNNING (no failure, no cancellation) executed exactly SUBMIT, then one
or more UPDATE_SCHEDULER commands, then RETRIEVE, and resumed through the
`process.retrieved` continuation. -/
theorem claim_C1_waiting_command_order (outs : List TaskOutcome) (msg start : String)
    (c : Continuation) (v : Val)
    (hstart : JobProcess.run = .toWaiting msg start)
    (h : (runWaiting start outs).2 = .resumedRunning c v) :
    c = .processRetrieved ∧
    ∃ n, (runWaiting start outs).1 =
      SUBMIT_COMMAND :: (List.replicate (n + 1) UPDATE_SCHEDULER_COMMAND ++ [RETRIEVE_COMMAND]) := by
  have hstart' : Transition.toWaiting "Waiting to submit" SUBMIT_COMMAND = .toWaiting msg start :=
    hstart
  injection hstart' with hmsg hdata
  subst hdata
  cases outs with
  | nil => simp [runWaiting] at h
  | cons o rest =>
    cases o with
    | ok v0 =>
      have hrw : runWaiting SUBMIT_COMMAND (.ok v0 :: rest)
          = (SUBMIT_COMMAND :: (runWaiting UPDATE_SCHEDULER_COMMAND rest).1,
             (runWaiting UPDATE_SCHEDULER_COMMAND rest).2) := rfl
      rw [hrw] at h
      obtain ⟨⟨k, htr⟩, hc⟩ := runWaiting_update_resumed rest c v h
      refine ⟨hc, k, ?_⟩
      rw [hrw, htr]
    | exn e =>
      have hrw : runWaiting SUBMIT_COMMAND (.exn e :: rest)
          = ([SUBMIT_COMMAND], .failed e) := rfl
      rw [hrw] at h
      cases h
    | cancelledError =>
      have hrw : runWaiting SUBMIT_COMMAND (.cancelledError :: rest)
          = ([SUBMIT_COMMAND], .cancelled) := rfl
      rw [hrw] at h
      cases h

/-- C1 witness: a run with a successful submission, one not-done poll, one done
poll and a successful retrieval resumes RUNNING and shows the claimed command
order concretely. -/
theorem claim_C1_witness :
    Continuation.processRetrieved = Continuation.processRetrieved ∧
    ∃ n, (runWaiting SUBMIT_COMMAND
        [.ok .none, .ok (.bool false), .ok (.bool true), .ok (.folder 7)]).1 =
      SUBMIT_COMMAND :: (List.replicate (n + 1) UPDATE_SCHEDULER_COMMAND ++ [RETRIEVE_COMMAND]) :=
  claim_C1_waiting_command_order
    [.ok .none, .ok (.bool false), .ok (.bool true), .ok (.folder 7)]
    "Waiting to submit" SUBMIT_COMMAND .processRetrieved (.folder 7) rfl rfl

/-- C2: when the job id is absent from the scheduler listing,
`UpdateSchedulerState.execute` sets the record's scheduler state to DONE and
returns `job_done = True` (provided fetching detailed info does not raise a hard
exception), and the waiting state maps that result to the RETRIEVE command, not
to FAILED. -/
theorem claim_C2_job_absent_means_done (calcNode : CalcNode) (detailed : Except PyErr String)
    (hd : ∀ e, detailed = .error e → e = PyErr.notImplementedError) :
    (UpdateSchedulerState.execute calcNode none detailed).1.scheduler_state
        = some JobState.done ∧
    (UpdateSchedulerState.execute calcNode none detailed).2 = .ok true ∧
    Waiting.action_command_body UPDATE_SCHEDULER_COMMAND (.ok (.bool true))
        = .ok (.toWaiting "Waiting to retrieve" RETRIEVE_COMMAND) := by
  refine ⟨?_, ?_, rfl⟩ <;>
  · cases detailed with
    | ok s => rfl
    | error e =>
      have he : e = PyErr.notImplementedError := hd e rfl
      subst he
      rfl

/-- C2 witness: with an empty listing and a scheduler that supports detailed job
info, the record ends with scheduler state DONE and the poll reports done. -/
theorem claim_C2_witness :
    (UpdateSchedulerState.execute ⟨none, none, .withscheduler, none⟩ none
        (.ok "details")).1.scheduler_state = some JobState.done ∧
    (UpdateSchedulerState.execute ⟨none, none, .withscheduler, none⟩ none
        (.ok "details")).2 = .ok true ∧
    Waiting.action_command_body UPDATE_SCHEDULER_COMMAND (.ok (.bool true))
        = .ok (.toWaiting "Waiting to retrieve" RETRIEVE_COMMAND) :=
  claim_C2_job_absent_means_done ⟨none, none, .withscheduler, none⟩ (.ok "details")
    (fun _ h => nomatch h)

/-- C3: an exception (other than a cancellation) raised by the awaited task in
any of the three waiting sub-steps makes `action_command` transition to FAILED
carrying that same exception. -/
theorem claim_C3_task_failure_fails_process (st : WaitingState) (e : PyErr)
    (hd : st.data = SUBMIT_COMMAND ∨ st.data = UPDATE_SCHEDULER_COMMAND ∨
          st.data = RETRIEVE_COMMAND) :
    (Waiting.action_command st (.exn e)).transition = .toFailed e := by
  obtain ⟨d, t, f⟩ := st
  rcases hd with h | h | h <;> (subst h; rfl)

/-- C3 witness: a task exception during SUBMIT transitions to FAILED with the
original exception. -/
theorem claim_C3_witness :
    (Waiting.action_command ⟨SUBMIT_COMMAND, some .submitJob, none⟩
        (.exn (.exc 5))).transition = .toFailed (.exc 5) :=
  claim_C3_task_failure_fails_process ⟨SUBMIT_COMMAND, some .submitJob, none⟩ (.exc 5)
    (Or.inl rfl)

/-- C4: a `CancelledError` observed by `action_command` in any waiting sub-step
transitions to CANCELLED (never FAILED); moreover, after `Waiting.cancel` is
called while a task is in flight, the pending cancelling future it created is
resolved with `True` by that CANCELLED transition. -/
theorem claim_C4_cancellation_is_cancelled (st : WaitingState)
    (hd : st.data = SUBMIT_COMMAND ∨ st.data = UPDATE_SCHEDULER_COMMAND ∨
          st.data = RETRIEVE_COMMAND) :
    (Waiting.action_command st .cancelledError).transition = .toCancelled ∧
    (∀ tk, st.task = some tk → st.cancelling_future = none →
      (Waiting.cancel st).1 = .pendingFuture ∧
      (Waiting.action_command (Waiting.cancel st).2 .cancelledError).transition
          = .toCancelled ∧
      (Waiting.action_command (Waiting.cancel st).2 .cancelledError).futureSetResult
          = some true) := by
  obtain ⟨d, t, f⟩ := st
  rcases hd with h | h | h <;>
  · subst h
    refine ⟨?_, ?_⟩
    · cases f <;> rfl
    · intro tk ht hf
      simp only at ht hf
      subst ht
      subst hf
      exact ⟨rfl, rfl, rfl⟩

/-- C4 witness: cancelling during SUBMIT with a task in flight yields a pending
future, and the subsequent `CancelledError` yields CANCELLED and resolves the
future with `True`. -/
theorem claim_C4_witness :
    (Waiting.action_command ⟨SUBMIT_COMMAND, some .submitJob, none⟩
        .cancelledError).transition = .toCancelled ∧
    (∀ tk, (⟨SUBMIT_COMMAND, some .submitJob, none⟩ : WaitingState).task = some tk →
      (⟨SUBMIT_COMMAND, some .submitJob, none⟩ : WaitingState).cancelling_future = none →
      (Waiting.cancel ⟨SUBMIT_COMMAND, some .submitJob, none⟩).1 = .pendingFuture ∧
      (Waiting.action_command
          (Waiting.cancel ⟨SUBMIT_COMMAND, some .submitJob, none⟩).2
          .cancelledError).transition = .toCancelled ∧
      (Waiting.action_command
          (Waiting.cancel ⟨SUBMIT_COMMAND, some .submitJob, none⟩).2
          .cancelledError).futureSetResult = some true) :=
  claim_C4_cancellation_is_cancelled ⟨SUBMIT_COMMAND, some .submitJob, none⟩ (Or.inl rfl)

/-- C5 counterexample: the claim that ANY failure while setting PARSINGFAILED is
swallowed is false: if `_set_state` raises an exception other than
`ModificationNotAllowed` (here `exc 1`), that exception propagates and replaces
the original parsing error `exc 0`. -/
theorem claim_C5_counterexample :
    (JobProcess.retrieved ⟨none, none, .parsing, none⟩ (.error (.exc 0))
        (some (.exc 1)) []).2 = .error (.exc 1) ∧
    ¬ (JobProcess.retrieved ⟨none, none, .parsing, none⟩ (.error (.exc 0))
        (some (.exc 1)) []).2 = .error (.exc 0) := by
  refine ⟨rfl, fun h => ?_⟩
  simp [JobProcess.retrieved] at h

/-- C5 (amended): if parsing raises, the record is set to PARSINGFAILED when
`_set_state` succeeds; a `ModificationNotAllowed` failure while setting that
state is swallowed, leaving the record unchanged; in both cases the original
exception is re-raised so the Process fails with it. -/
theorem claim_C5_parsing_failure_marks_record (calcNode : CalcNode) (e : PyErr)
    (outputs : List (String × Nat)) (sres : Option PyErr)
    (hs : sres = none ∨ sres = some PyErr.modificationNotAllowed) :
    (JobProcess.retrieved calcNode (.error e) sres outputs).2 = .error e ∧
    (sres = none →
      (JobProcess.retrieved calcNode (.error e) sres outputs).1.state
          = CalcState.parsingfailed) ∧
    (sres = some PyErr.modificationNotAllowed →
      (JobProcess.retrieved calcNode (.error e) sres outputs).1 = calcNode) := by
  rcases hs with h | h <;> subst h
  · refine ⟨rfl, fun _ => rfl, fun hc => ?_⟩
    cases hc
  · refine ⟨rfl, fun hc => ?_, fun _ => rfl⟩
    cases hc

/-- C5 witness: a parsing error with a successful `_set_state` leaves the record
in PARSINGFAILED and re-raises the original error. -/
theorem claim_C5_witness :
    (JobProcess.retrieved ⟨none, none, .parsing, none⟩ (.error (.exc 0)) none []).2
        = .error (.exc 0) ∧
    (none = (none : Option PyErr) →
      (JobProcess.retrieved ⟨none, none, .parsing, none⟩ (.error (.exc 0)) none []).1.state
          = CalcState.parsingfailed) ∧
    ((none : Option PyErr) = some PyErr.modificationNotAllowed →
      (JobProcess.retrieved ⟨none, none, .parsing, none⟩ (.error (.exc 0)) none []).1
          = ⟨none, none, .parsing, none⟩) :=
  claim_C5_parsing_failure_marks_record ⟨none, none, .parsing, none⟩ (.exc 0) [] none
    (Or.inl rfl)

/-- C6: a waiting state reconstructed from a checkpoint has no active task and no
pending cancelling future, and it schedules `action_command` again, exactly as
`enter` does on a fresh transition. -/
theorem claim_C6_load_rearms_pending_work (saved : SavedWaiting) (st : WaitingState) :
    (Waiting.load_instance_state saved).1.task = none ∧
    (Waiting.load_instance_state saved).1.cancelling_future = none ∧
    (Waiting.load_instance_state saved).1.data = saved.data ∧
    (Waiting.load_instance_state saved).2 = [Scheduled.actionCommand] ∧
    (Waiting.load_instance_state saved).2 = (Waiting.enter st).2 :=
  ⟨rfl, rfl, rfl, rfl, rfl⟩

/-- C7: when the polled job is found and its state differs from the recorded
last job info, `UpdateSchedulerState.execute` updates the record's job-state
snapshot via `update_job_calc_from_job_info`. -/
theorem claim_C7_state_change_updates_record (calcNode : CalcNode)
    (info last : JobInfo) (detailed : Except PyErr String)
    (hlast : calcNode.last_jobinfo = some last)
    (hne : info.job_state ≠ last.job_state) :
    (UpdateSchedulerState.execute calcNode (some info) detailed).1.last_jobinfo
        = (update_job_calc_from_job_info calcNode info).last_jobinfo ∧
    (UpdateSchedulerState.execute calcNode (some info) detailed).1.last_jobinfo
        = some info := by
  have hbase : (update_job_calc_from_job_info calcNode info).last_jobinfo = some info := rfl
  unfold UpdateSchedulerState.execute
  rw [hlast]
  simp only [hne, if_true, ne_eq, not_false_iff]
  by_cases hjd : info.job_state = JobState.done
  · cases detailed with
    | ok s =>
      simp [hjd, hne, update_job_calc_from_detailed_job_info, CalcNode.set_state,
        update_job_calc_from_job_info]
    | error e =>
      cases e <;>
        simp [hjd, hne, update_job_calc_from_detailed_job_info, CalcNode.set_state,
          update_job_calc_from_job_info]
  · simp [hjd, hne, update_job_calc_from_job_info]

/-- C7 witness: a found job whose state moved from QUEUED (recorded) to RUNNING
updates the record's snapshot to the new info. -/
theorem claim_C7_witness :
    (UpdateSchedulerState.execute ⟨some .queued, some ⟨.queued⟩, .withscheduler, none⟩
        (some ⟨.running⟩) (.ok "d")).1.last_jobinfo
      = (update_job_calc_from_job_info ⟨some .queued, some ⟨.queued⟩, .withscheduler, none⟩
          ⟨.running⟩).last_jobinfo ∧
    (UpdateSchedulerState.execute ⟨some .queued, some ⟨.queued⟩, .withscheduler, none⟩
        (some ⟨.running⟩) (.ok "d")).1.last_jobinfo = some ⟨.running⟩ :=
  claim_C7_state_change_updates_record ⟨some .queued, some ⟨.queued⟩, .withscheduler, none⟩
    ⟨.running⟩ ⟨.queued⟩ (.ok "d") rfl (by decide)

/-- C8: if the task was cancelled before the transport was granted, the granted
callback `_execute` leaves the future untouched (no result, no exception set)
and never invokes `execute`. -/
theorem claim_C8_cancelled_task_no_effect (fut : TaskFuture) (run : Except PyErr Val)
    (h : fut.cancelledFlag = true) :
    TransportTask._execute fut run = (fut, false) := by
  obtain ⟨r, ex, c⟩ := fut
  subst h
  rfl

/-- C8 witness: a cancelled task's `_execute` is a no-op on a concrete future
even when `execute` would have returned a value. -/
theorem claim_C8_witness :
    TransportTask._execute ⟨none, none, true⟩ (.ok (.bool true))
      = (⟨none, none, true⟩, false) :=
  claim_C8_cancelled_task_no_effect ⟨none, none, true⟩ (.ok (.bool true)) rfl

/-- C9 counterexample: the claim "recognizes exactly the twelve listed keys and
no other key" is false: the source's options schema also recognizes the key
`computer`, which is not among the claimed keys. -/
theorem claim_C9_counterexample :
    "computer" ∈ JobProcess.options.map Prod.fst ∧
    "computer" ∉ specClaimedOptions.map Prod.fst := by
  decide

/-- C9 (amended): the options bundle recognizes exactly the twelve claimed keys
plus `computer` (a `Computer` instance), each with the stated value kind. -/
theorem claim_C9_options_schema :
    JobProcess.options.map (fun kv => (kv.1, specKindOf kv.2)) = specAmendedOptions := by
  decide

end Aiida
